import Mathlib

/-!
Verification of the Redes_Ruteo resilient-routing code base.

The Python sources are shallowly embedded over `ℚ` (Python floats are
IEEE doubles; all constants appearing in the code are exactly
representable decimals, and every operation used — `+`, `*`, `/` by
constants, `min`, `max`, comparisons — is modelled exactly over `ℚ`).
Randomness (`random.uniform` draws) and the wall-clock hour
(`datetime.datetime.now().hour`) are passed as explicit arguments, so
each embedded function is a deterministic function of its inputs plus
the sampled values, exactly as the interpreter evaluates one run.
-/

/- ------------------------------------------------------------------
   scripts/probability_model.py
   ------------------------------------------------------------------ -/

/-- The `base_probs` dict lookup with default 0.3
(`probability_model.py`, lines 42-48). -/
def base_probs (threat_type : String) : ℚ :=
  if threat_type == "waze" then 0.6
  else if threat_type == "weather" then 0.4
  else if threat_type == "calming" then 0.15
  else 0.3

/-- `calculate_dynamic_probability` (`probability_model.py`, lines 27-79).
The `random.uniform(0.85, 1.15)` draw made inside the Python function is
passed in as `random_factor`; `size_m` is `Option ℚ` because callers pass
`None` for it (Python truthiness: `None` and `0` are falsy). -/
def calculate_dynamic_probability (threat_type : String) (severity distance_m : ℚ)
    (size_m : Option ℚ) (duration_factor random_factor : ℚ) : ℚ :=
  let base_prob := base_probs threat_type
  let severity_factor := 0.5 + (severity - 1) * 0.3
  let distance_factor :=
    if distance_m ≤ 50 then (1.0 : ℚ)
    else if distance_m ≤ 100 then 0.8
    else if distance_m ≤ 200 then 0.6
    else max 0.1 (1.0 - distance_m / 1000)
  let size_factor :=
    match size_m with
    | some s => if s ≠ 0 ∧ threat_type == "weather" then min 2.0 (1.0 + s / 2000) else 1.0
    | none => 1.0
  let time_factor := 0.7 + duration_factor * 0.6
  let probability :=
    base_prob * severity_factor * distance_factor * size_factor * time_factor * random_factor
  min 0.95 (max 0.0 probability)

/-- `calculate_dynamic_weather_probability` (`probability_model.py`, lines 82-95). -/
def calculate_dynamic_weather_probability
    (severity distance_m size_m visibility_factor random_factor : ℚ) : ℚ :=
  let visibility_impact : ℚ := if severity ≥ 4 then 1.5 else 1.0
  let precipitation_factor := 1.0 + size_m / 3000
  let base_prob :=
    calculate_dynamic_probability "weather" severity distance_m (some size_m) 0.6 random_factor
  min 0.95 (base_prob * visibility_impact * precipitation_factor * visibility_factor)

/-- One aggregation pass as it acts on a single way:
`reset_failure_probabilities` / the `UPDATE rr.ways SET fail_prob = 0.0`
at line 390 overwrite the prior value with 0.0, and then each join row
for a threat influencing the way executes
`UPDATE rr.ways SET fail_prob = GREATEST(fail_prob, prob)`
(`probability_model.py` lines 406, 426, 442; the same `GREATEST` rule is
used for `prob_falla` in `procesar_amenazas.py` line 87).
`priorFailProb` is the value the way had before the pass. -/
def wayPassResult (priorFailProb : ℚ) (contribs : List ℚ) : ℚ :=
  let resetValue : ℚ := 0.0
  contribs.foldl (fun acc p => max acc p) resetValue

/- ------------------------------------------------------------------
   scripts/procesar_amenazas.py
   ------------------------------------------------------------------ -/

/-- A row of one of the threat tables as read by `procesar_amenazas.py`. -/
structure Amenaza where
  severidad : ℚ
  impacto_critico : ℚ
deriving DecidableEq, Repr

/-- `W_SEVERIDAD` (`procesar_amenazas.py`, line 17). -/
def W_SEVERIDAD : ℚ := 0.5

/-- `W_IMPACTO` (`procesar_amenazas.py`, line 18). -/
def W_IMPACTO : ℚ := 1.5

/-- `W_DISTANCIA` (`procesar_amenazas.py`, line 29). -/
def W_DISTANCIA : ℚ := 1.0

/-- `W_RIESGO` (`procesar_amenazas.py`, line 30). -/
def W_RIESGO : ℚ := 3.0

/-- `penalizacion` of a threat row: `(severidad * W_SEVERIDAD) + (impacto_critico * W_IMPACTO)`
(`procesar_amenazas.py`, line 77). -/
def penalizacion (a : Amenaza) : ℚ :=
  a.severidad * W_SEVERIDAD + a.impacto_critico * W_IMPACTO

/-- `prob` of a threat row: `(severidad + impacto_critico) / 20.0`
(`procesar_amenazas.py`, line 79). -/
def prob_amenaza (a : Amenaza) : ℚ :=
  (a.severidad + a.impacto_critico) / 20.0

/-- `prob_falla` of one way after `resetear_costos` + `procesar_amenazas`:
reset to 0.0, then `prob_falla = GREATEST(prob_falla, prob)` for every
threat row within range of the way (`procesar_amenazas.py`, lines 49, 87). -/
def procesarProbFalla (amenazas : List Amenaza) : ℚ :=
  amenazas.foldl (fun acc a => max acc (prob_amenaza a)) 0.0

/-- `costo_amenaza` of one way after the pass: reset to 0.0, then
`costo_amenaza = costo_amenaza + penalizacion` accumulated over the threat
rows within range (`procesar_amenazas.py`, lines 50, 85). -/
def procesarCostoAmenaza (amenazas : List Amenaza) : ℚ :=
  amenazas.foldl (fun acc a => acc + penalizacion a) 0.0

/- ------------------------------------------------------------------
   Road-network rows and the pgr_dijkstra search model
   ------------------------------------------------------------------ -/

/-- A row of `rr.ways` with the columns consumed by `app.py`'s
`/api/calculate_route` queries (lines 802-937): `id, source, target,
length_m, cost_combined, fail_prob` plus the `oneway` flag the table
carries (which none of those queries reads). -/
structure Way where
  id : Nat
  source : Nat
  target : Nat
  length_m : ℚ
  cost_combined : ℚ
  fail_prob : ℚ
  oneway : String
deriving DecidableEq, Repr

/-- One directed arc of the graph handed to pgRouting. -/
structure Arc where
  eid : Nat
  src : Nat
  tgt : Nat
  cost : ℚ
deriving DecidableEq, Repr

/-- Arc expansion for `pgr_dijkstra(..., directed := false)`, the form used
by every branch of `/api/calculate_route` (`app.py` lines 832, 855, 917):
each row is traversable in both directions at the same cost, regardless
of its `oneway` flag. -/
def undirectedArcs (rows : List Way) (cost : Way → ℚ) : List Arc :=
  rows.flatMap (fun w =>
    [⟨w.id, w.source, w.target, cost w⟩, ⟨w.id, w.target, w.source, cost w⟩])

/-- Arcs of the `dijkstra_dist` branch (`app.py` lines 830-832): cost is
`w.length_m`, every row of `rr.ways` participates, `directed := false`. -/
def appDistArcs (rows : List Way) : List Arc :=
  undirectedArcs rows (fun w => w.length_m)

/-- Edge cost of the `cplex` branch with the empty `threat_penalty`
(`app.py` line 913): `w.cost_combined * (1 + COALESCE(w.fail_prob, 0) * 10)`. -/
def cplexCost (w : Way) : ℚ :=
  w.cost_combined * (1 + w.fail_prob * 10)

/-- Rows admitted by the `cplex` branch's graph query (`app.py` line 915):
`WHERE w.cost_combined > 0` — the filter never looks at `fail_prob`. -/
def cplexEligible (rows : List Way) : List Way :=
  rows.filter (fun w => 0 < w.cost_combined)

/-- Arcs of the `cplex` branch (`app.py` lines 911-917, `directed := false`). -/
def cplexArcs (rows : List Way) : List Arc :=
  undirectedArcs (cplexEligible rows) cplexCost

/-- Total cost of a path, `agg_cost` in pgRouting terms. -/
def pathCost (p : List Arc) : ℚ :=
  p.foldl (fun acc a => acc + a.cost) 0

/-- All simple paths (no node revisited) from `cur` to `tgt`; `fuel`
bounds the recursion depth. -/
def simplePathsAux (arcs : List Arc) : Nat → Nat → Nat → List Nat → List (List Arc)
  | 0, _, _, _ => []
  | fuel + 1, cur, tgt, visited =>
    if cur = tgt then [[]]
    else
      (arcs.filter (fun a => a.src = cur ∧ ¬ a.tgt ∈ visited)).flatMap
        (fun a =>
          (simplePathsAux arcs fuel a.tgt tgt (a.tgt :: visited)).map (fun p => a :: p))

/-- All simple paths from `src` to `tgt` over the arc set. -/
def simplePaths (arcs : List Arc) (src tgt : Nat) : List (List Arc) :=
  simplePathsAux arcs (arcs.length + 1) src tgt [src]

/-- Model of the external `pgr_dijkstra` call: among the simple paths from
source to target it returns one of minimum total cost (`none` when the
nodes are disconnected). -/
def pgrDijkstra (arcs : List Arc) (src tgt : Nat) : Option (List Arc) :=
  (simplePaths arcs src tgt).foldl
    (fun best p =>
      match best with
      | none => some p
      | some b => if pathCost p < pathCost b then some p else best)
    none

/- ------------------------------------------------------------------
   src/main.py: the directed Dijkstra variants
   ------------------------------------------------------------------ -/

/-- A row of `rr.ways` with the columns consumed by `main.py`'s
`calc_dijkstra_distancia` graph query (lines 104-119). -/
structure MainWay where
  id : Nat
  source : Nat
  target : Nat
  length_m : ℚ
  oneway : String
  maxwidth_m : Option ℚ
deriving DecidableEq, Repr

/-- Row filter of `calc_dijkstra_distancia` (`main.py` lines 116-118):
`length_m > 0 AND (maxwidth_m IS NULL OR maxwidth_m >= width)`. -/
def mainRowIncluded (width_m : ℚ) (w : MainWay) : Bool :=
  decide (0 < w.length_m) &&
    (match w.maxwidth_m with
      | none => true
      | some m => decide (width_m ≤ m))

/-- Forward cost column of `calc_dijkstra_distancia`: `length_m AS cost`. -/
def mainCost (w : MainWay) : ℚ := w.length_m

/-- `reverse_cost` CASE of `calc_dijkstra_distancia` (`main.py` lines
110-114): `-1` for `oneway = 'yes'`, `length_m` otherwise. -/
def mainReverseCost (w : MainWay) : ℚ :=
  if w.oneway == "yes" then -1
  else if w.oneway == "-1" then w.length_m
  else w.length_m

/-- Arcs one row contributes under pgRouting's directed semantics
(`directed := TRUE`, `main.py` line 126): a direction with negative cost
is untraversable and contributes no arc. -/
def mainArcsOfRow (w : MainWay) : List Arc :=
  (if 0 ≤ mainCost w then [⟨w.id, w.source, w.target, mainCost w⟩] else []) ++
    (if 0 ≤ mainReverseCost w then [⟨w.id, w.target, w.source, mainReverseCost w⟩] else [])

/-- The directed arc set `calc_dijkstra_distancia` hands to `pgr_dijkstra`. -/
def mainDirectedArcs (width_m : ℚ) (rows : List MainWay) : List Arc :=
  (rows.filter (mainRowIncluded width_m)).flatMap mainArcsOfRow

/- ------------------------------------------------------------------
   scripts/test_routing_simulation.py: run_routing_algorithm
   ------------------------------------------------------------------ -/

/-- A row of `rr.ways_routing` as consumed by `run_routing_algorithm`
(`test_routing_simulation.py` lines 84-92). -/
structure RoutingWay where
  cost : ℚ
  fail_prob : ℚ
deriving DecidableEq, Repr

/-- The `cost_expression` of `run_routing_algorithm` (line 84):
`(1.0 - COALESCE(fail_prob, 0.0)) * cost` when `use_fail_prob` is set,
plain `cost` otherwise. -/
def cost_expression (use_fail_prob : Bool) (w : RoutingWay) : ℚ :=
  if use_fail_prob then (1 - w.fail_prob) * w.cost else w.cost

/-- Aggregated cost of a route under `run_routing_algorithm`'s cost
expression. -/
def routeAggCost (use_fail_prob : Bool) (p : List RoutingWay) : ℚ :=
  p.foldl (fun acc w => acc + cost_expression use_fail_prob w) 0

/- ------------------------------------------------------------------
   Concrete inputs used by the counterexamples and scenarios
   ------------------------------------------------------------------ -/

/-- Scenario edge A–B: 100 m, hazard-free (`cost_combined = length_m`). -/
def wayAB : Way := ⟨1, 1, 2, 100, 100, 0, "no"⟩

/-- Scenario edge B–C: 100 m, hazard with `fail_prob = 0.8`. -/
def wayBC : Way := ⟨2, 2, 3, 100, 100, 0.8, "no"⟩

/-- Scenario edge C–D: 100 m, hazard-free. -/
def wayCD : Way := ⟨3, 3, 4, 100, 100, 0, "no"⟩

/-- Scenario detour edge B–E: 150 m, hazard-free. -/
def wayBE : Way := ⟨4, 2, 5, 150, 150, 0, "no"⟩

/-- Scenario detour edge E–C: 150 m, hazard-free. -/
def wayEC : Way := ⟨5, 5, 3, 150, 150, 0, "no"⟩

/-- The spec's end-to-end scenario graph: A-B-C-D at 100 m per edge with
the B–C hazard, plus the 500 m total detour A-B-E-C-D. -/
def scenarioWays : List Way := [wayAB, wayBC, wayCD, wayBE, wayEC]

/-- An edge that accrued a threat cost: length 100 m but
`cost_combined = 106` (as `procesar_amenazas.py` produces for
`costo_amenaza = 2`), `fail_prob = 0.8`. -/
def wayThreatCost : Way := ⟨9, 1, 2, 100, 106, 0.8, "no"⟩

/-- A single edge at `fail_prob = 0.9`, the only connection from node 1
to node 2. -/
def riskyWay : Way := ⟨7, 1, 2, 100, 100, 0.9, "no"⟩

/-- A forward-only edge from node 1 to node 2. -/
def onewayWay : Way := ⟨8, 1, 2, 100, 100, 0, "yes"⟩

/- ------------------------------------------------------------------
   Python name resolution (app.py and probability_model.py)
   ------------------------------------------------------------------ -/

/-- The Python exceptions tracked by the embedding. -/
inductive PyErr where
  | nameError (n : String)
deriving DecidableEq, Repr

/-- The module-level names bound in `app.py` (imports at lines 8-16, the
`app` object, the two `simulate_random_failures_on_route` definitions,
the PG* constants at lines 132-136, and the remaining function
definitions). -/
def appModuleNames : List String :=
  ["os", "json", "time", "random", "math", "Flask", "render_template", "jsonify",
   "request", "send_from_directory", "psycopg2", "RealDictCursor", "load_dotenv",
   "app", "simulate_random_failures_on_route", "PGHOST", "PGPORT", "PGDATABASE",
   "PGUSER", "PGPASSWORD", "get_db_connection", "index", "static_files",
   "metadata_files", "api_threats", "api_hydrants", "build_route_geojson",
   "api_calculate_route", "api_simulate_failures"]

/-- Every name assigned somewhere in the body of `api_calculate_route`
(`app.py` lines 711-978); Python treats exactly these as the function's
local variables. -/
def apiCalculateRouteLocals : List String :=
  ["data", "start", "end", "algorithm", "simulate_failures", "constraints",
   "start_lat", "start_lng", "end_lat", "end_lng", "conn", "cur",
   "start_node_row", "source_node", "end_node_row", "target_node", "target_x",
   "target_y", "results", "simulated_threats", "base_routing_query",
   "simple_route", "start_time", "penalty_clause", "sql_for_pgr", "route_query",
   "params", "geojson", "compute_time_ms", "threat_penalty", "has_valid_route",
   "db_err", "e"]

/-- Whether a name resolves inside `api_calculate_route`: it must be a
local of the function or a module-level name (builtins hold none of the
names this model looks up). -/
def apiNameDefined (n : String) : Bool :=
  apiCalculateRouteLocals.contains n || appModuleNames.contains n

/-- Evaluation of the first statement of each algorithm branch of
`api_calculate_route` (`app.py` lines 830, 853, 876, 910, 936): the
conditional expression `f"... {ids_str} ..." if ids_str else <elseArm>`
evaluates the name `ids_str` first, raising `NameError` when it is
unbound. Were the name bound to a falsy value, the `elseArm` string
would be produced (the truthy arm is unreachable in this model because
the name is bound nowhere). -/
def evalPenaltyClause (elseArm : String) : Except PyErr String :=
  if apiNameDefined "ids_str" then Except.ok elseArm
  else Except.error (PyErr.nameError "ids_str")

/-- One algorithm branch of `api_calculate_route` (`app.py` lines
826-950): when selected, run the branch body inside `try`; any exception
is logged via `app.logger.error` and leaves `results` unchanged;
otherwise the branch's entry is appended. -/
def runBranch (selected : Bool) (key elseArm : String)
    (results : List (String × String)) : List (String × String) :=
  if selected then
    match evalPenaltyClause elseArm with
    | Except.ok clause => results ++ [(key, clause)]
    | Except.error _ => results
  else results

/-- The HTTP outcomes of `api_calculate_route` this model distinguishes. -/
inductive ApiResponse where
  | ok (results : List (String × String))
  | notFound (msg : String)
deriving DecidableEq, Repr

/-- `api_calculate_route` from the point where both nearest-node lookups
succeeded (`app.py` lines 798-965): the four algorithm branches run in
order, then an empty `results` dict produces the 404 error
(lines 955-959). -/
def apiCalculateRoute (algorithm : String) : ApiResponse :=
  let results : List (String × String) := []
  let results := runBranch (algorithm == "all" || algorithm == "dijkstra_dist")
    "dijkstra_dist" "w.length_m" results
  let results := runBranch (algorithm == "all" || algorithm == "dijkstra_prob")
    "dijkstra_prob" "w.cost_combined" results
  let results := runBranch (algorithm == "all" || algorithm == "astar_prob")
    "astar_prob" "w.cost_combined * 0.8 + w.length_m * 0.2" results
  let results := runBranch (algorithm == "all" || algorithm == "cplex")
    "cplex" "" results
  if results.isEmpty then
    ApiResponse.notFound "No se pudo calcular ninguna ruta entre los puntos especificados"
  else ApiResponse.ok results

/- ------------------------------------------------------------------
   app.py: simulate_random_failures_on_route (demo hazard generator)
   ------------------------------------------------------------------ -/

/-- The per-subtype constants of `threat_configs` used by the severity and
probability computation (`app.py` lines 476-525): `base_severity`,
`base_probability`, `duration_factor` and the fire-truck `vehicle_impact`. -/
structure ThreatConfig where
  base_severity : ℚ
  base_probability : ℚ
  duration_factor : ℚ
  fire_truck_impact : ℚ
deriving DecidableEq, Repr

/-- `threat_configs['waze']['TRAFFIC_JAM']` (`app.py` lines 478-484). -/
def trafficJamConfig : ThreatConfig := ⟨2, 0.3, 0.7, 0.95⟩

/-- The random draws one generated threat consumes:
`random.uniform(0, 100)` at line 605, `random.uniform(*size_range_m)` at
line 621, `random.uniform(0.8, 1.2)` at line 628, `random.random()` at
line 616. -/
structure ThreatDraws where
  distance_from_segment : ℚ
  size_m : ℚ
  random_factor : ℚ
  weather_time_draw : ℚ
deriving DecidableEq, Repr

/-- `time_factor` (`app.py` lines 608-618): waze threats get a 1.5×
factor when `datetime.datetime.now().hour` falls in a rush-hour window,
weather threats use a random draw, anything else gets 1.0. -/
def time_factor_for (threat_source : String) (current_hour : Nat) (d : ThreatDraws) : ℚ :=
  if threat_source == "waze" then
    1.0 + 0.5 * (if (7 ≤ current_hour ∧ current_hour ≤ 9) ∨
      (17 ≤ current_hour ∧ current_hour ≤ 19) then 1 else 0)
  else if threat_source == "weather" then 0.8 + 0.4 * d.weather_time_draw
  else 1.0

/-- `distance_factor` (`app.py` line 606): `max(0.3, 1.0 - d/100)`. -/
def sim_distance_factor (d : ThreatDraws) : ℚ :=
  max 0.3 (1.0 - d.distance_from_segment / 100)

/-- `size_factor` (`app.py` line 622): `min(1.5, 1.0 + size_m/1000)`. -/
def sim_size_factor (d : ThreatDraws) : ℚ :=
  min 1.5 (1.0 + d.size_m / 1000)

/-- `severity` of a non-blocking generated threat (`app.py` line 631):
`min(5, max(1, int(base_severity * distance_factor * time_factor *
size_factor * duration_factor * random_factor)))`; for the nonnegative
operands produced here Python's `int` truncation is the floor. -/
def sim_severity (cfg : ThreatConfig) (threat_source : String) (current_hour : Nat)
    (d : ThreatDraws) : ℤ :=
  min 5 (max 1 ⌊cfg.base_severity * sim_distance_factor d *
    time_factor_for threat_source current_hour d * sim_size_factor d *
    cfg.duration_factor * d.random_factor⌋)

/-- `probability` of a generated threat (`app.py` lines 633-641):
`min(0.95, base_probability * distance_factor * time_factor *
random_factor)` then scaled by the fire-truck `vehicle_impact`. -/
def sim_probability (cfg : ThreatConfig) (threat_source : String) (current_hour : Nat)
    (d : ThreatDraws) : ℚ :=
  min 0.95 (cfg.base_probability * sim_distance_factor d *
    time_factor_for threat_source current_hour d * d.random_factor) *
    cfg.fire_truck_impact

/- ------------------------------------------------------------------
   probability_model.py: calculate_failure_probabilities and main
   ------------------------------------------------------------------ -/

/-- The module-level names bound in `probability_model.py` (imports at
lines 8-13, the DB_* constants, `STATEMENT_TIMEOUT_MS`, and the function
definitions). Note `import random` at line 72 is local to
`calculate_dynamic_probability`. -/
def pmModuleNames : List String :=
  ["os", "sys", "psycopg2", "RealDictCursor", "load_dotenv", "time", "DB_HOST",
   "DB_PORT", "DB_NAME", "DB_USER", "DB_PASS", "calculate_dynamic_probability",
   "calculate_dynamic_weather_probability", "STATEMENT_TIMEOUT_MS",
   "meters_to_degrees", "get_db_connection", "ensure_fail_prob_columns",
   "ensure_spatial_indexes", "set_statement_timeout",
   "reset_failure_probabilities", "calculate_failure_probabilities",
   "print_statistics", "main"]

/-- Every name assigned somewhere in the body of
`calculate_failure_probabilities` (`probability_model.py` lines 338-534),
i.e. its Python locals. -/
def calcFailProbLocals : List String :=
  ["conn", "cur", "waze_count", "weather_count", "calming_count",
   "total_threats", "start_all", "waze_results", "row", "prob",
   "weather_results", "size_m", "visibility_factor", "calming_results",
   "ways_affected", "col_row", "geom_col", "step_start", "vertices_affected"]

/-- Whether a name resolves inside `calculate_failure_probabilities`. -/
def pmNameDefined (n : String) : Bool :=
  calcFailProbLocals.contains n || pmModuleNames.contains n

/-- Python name lookup inside `calculate_failure_probabilities`: an
unbound name raises `NameError`. -/
def pmEvalName (n : String) : Except PyErr Unit :=
  if pmNameDefined n then Except.ok () else Except.error (PyErr.nameError n)

/-- A row of the `rr.ways × rr.amenazas_clima` spatial join
(`probability_model.py` lines 411-418). `size_m` carries the Python
value `(area_km2 * 1000000) ** 0.5` of line 423, supplied as an input
because that square root is irrational in general. -/
structure WeatherJoinRow where
  way_id : Nat
  severity : ℚ
  distance_m : ℚ
  size_m : ℚ
deriving DecidableEq, Repr

/-- `UPDATE rr.ways SET fail_prob = GREATEST(fail_prob, prob) WHERE id = way_id`
(`probability_model.py` line 426). -/
def updateWayProb (ways : List (Nat × ℚ)) (way_id : Nat) (prob : ℚ) : List (Nat × ℚ) :=
  ways.map (fun e => if e.1 = way_id then (e.1, max e.2 prob) else e)

/-- The inputs one run of `calculate_failure_probabilities` reads:
the ways table (id, committed fail_prob), the three threat-table counts
(lines 352-370), the weather join rows paired with the
`random.uniform(0.85, 1.15)` draw each row's probability consumes, and
the `ways_vertices_pgr` configuration probed at lines 448-469. -/
structure PmInput where
  ways : List (Nat × ℚ)
  waze_count : Nat
  weather_count : Nat
  calming_count : Nat
  weatherJoin : List (WeatherJoinRow × ℚ)
  vertices_table_exists : Bool
  vertices_geom_col : Option String
deriving Repr

/-- `calculate_failure_probabilities` (`probability_model.py` lines
338-534), returning the ways state the function commits, or the
uncaught Python exception. When `waze_count > 0` the parameter
expression `meters_to_degrees(get_influence_radius('waze'))` at line 401
is evaluated before the query runs, so the `Except.ok` continuation of
that lookup (which would process the Waze rows) is dead code; the same
holds for the calming branch at line 437 and, in the vertices block, for
the params dict at lines 517-526 whose first evaluated name is
`WAZE_PROB`. The weather branch (lines 409-426) has no such name and
does run. -/
def calculate_failure_probabilities (inp : PmInput) :
    Except PyErr (List (Nat × ℚ)) :=
  let total_threats := inp.waze_count + inp.weather_count + inp.calming_count
  if total_threats = 0 then
    Except.ok inp.ways
  else
    let ways0 := inp.ways.map (fun e => (e.1, (0 : ℚ)))
    match (if 0 < inp.waze_count then pmEvalName "get_influence_radius"
      else Except.ok ()) with
    | Except.error e => Except.error e
    | Except.ok _ =>
      let ways2 :=
        if 0 < inp.weather_count then
          inp.weatherJoin.foldl (fun ws rw =>
            let visibility_factor : ℚ := if rw.1.severity ≥ 4 then 1.5 else 1.0
            let prob := calculate_dynamic_weather_probability rw.1.severity
              rw.1.distance_m rw.1.size_m visibility_factor rw.2
            updateWayProb ws rw.1.way_id prob) ways0
        else ways0
      match (if 0 < inp.calming_count then pmEvalName "get_influence_radius"
        else Except.ok ()) with
      | Except.error e => Except.error e
      | Except.ok _ =>
        if inp.vertices_table_exists then
          match inp.vertices_geom_col with
          | some _ =>
            match pmEvalName "WAZE_PROB" with
            | Except.error e => Except.error e
            | Except.ok _ => Except.ok ways2
          | none => Except.ok ways2
        else Except.ok ways2

/-- `main` of `probability_model.py` (lines 589-626):
`reset_failure_probabilities` commits an all-zero state (line 335), then
`calculate_failure_probabilities` runs inside the `try`; an exception is
caught and printed and `main` returns 1 with the transaction rolled
back, leaving the committed all-zero state; on success the pass's state
was committed and `main` returns 0. -/
def probability_model_main (inp : PmInput) : Nat × List (Nat × ℚ) :=
  let resetWays := inp.ways.map (fun e => (e.1, (0 : ℚ)))
  match calculate_failure_probabilities { inp with ways := resetWays } with
  | Except.ok ws => (0, ws)
  | Except.error _ => (1, resetWays)

/-- A concrete input for C10: no Waze or calming threats, one weather
threat whose join touches way 7 (severity 3, 30 m, 1000 m size, random
draw 1.0), and a `ways_vertices_pgr` table that exists but exposes
neither a `geom` nor a `the_geom` column. -/
def pmNoGeomColInput : PmInput :=
  { ways := [(7, 0)], waze_count := 0, weather_count := 1, calming_count := 0,
    weatherJoin := [(⟨7, 3, 30, 1000⟩, 1)],
    vertices_table_exists := true, vertices_geom_col := none }

/-- A concrete input with one Waze threat and nothing else: the first
branch of `calculate_failure_probabilities` evaluates
`get_influence_radius` and dies. -/
def pmWazeInput : PmInput :=
  { ways := [(7, 0)], waze_count := 1, weather_count := 0, calming_count := 0,
    weatherJoin := [], vertices_table_exists := false, vertices_geom_col := none }

/- ------------------------------------------------------------------
   Generic facts about the GREATEST fold
   ------------------------------------------------------------------ -/

lemma foldl_max_init_le (l : List ℚ) : ∀ init : ℚ, init ≤ l.foldl max init := by
  induction l with
  | nil => intro init; exact le_refl _
  | cons a l ih => intro init; exact le_trans (le_max_left init a) (ih (max init a))

lemma mem_le_foldl_max (l : List ℚ) : ∀ (init p : ℚ), p ∈ l → p ≤ l.foldl max init := by
  induction l with
  | nil => intro _ _ hmem; cases hmem
  | cons a l ih =>
    intro init p hmem
    rcases List.mem_cons.mp hmem with h | h
    · subst h
      exact le_trans (le_max_right init p) (foldl_max_init_le l (max init p))
    · exact ih (max init a) p h

lemma foldl_max_eq_init_or_mem (l : List ℚ) :
    ∀ init : ℚ, l.foldl max init = init ∨ l.foldl max init ∈ l := by
  induction l with
  | nil => intro _; exact Or.inl rfl
  | cons a l ih =>
    intro init
    rcases ih (max init a) with h | h
    · rcases max_choice init a with hm | hm
      · exact Or.inl (by rw [List.foldl_cons, h, hm])
      · exact Or.inr (by rw [List.foldl_cons, h, hm]; exact List.mem_cons_self a l)
    · exact Or.inr (List.mem_cons_of_mem a h)

lemma foldl_max_le_of_forall (l : List ℚ) : ∀ (init c : ℚ), init ≤ c →
    (∀ p ∈ l, p ≤ c) → l.foldl max init ≤ c := by
  induction l with
  | nil => intro _ _ h0 _; exact h0
  | cons a l ih =>
    intro init c h0 h
    exact ih (max init a) c (max_le h0 (h a (List.mem_cons_self a l)))
      (fun p hp => h p (List.mem_cons_of_mem a hp))

/- ------------------------------------------------------------------
   C1: aggregation takes the maximum, never the sum
   ------------------------------------------------------------------ -/

/-- C1: after one aggregation pass a way's failure probability is the
maximum of the per-hazard contributions (it is one of them, or the reset
value 0 when none dominates), and appending a further contribution that
does not exceed the current value leaves the value unchanged — the
contributions are never summed. -/
theorem C1_fail_prob_is_max_of_contributions :
    (∀ (prior : ℚ) (contribs : List ℚ) (q : ℚ), q ≤ wayPassResult prior contribs →
      wayPassResult prior (contribs ++ [q]) = wayPassResult prior contribs) ∧
    (∀ (prior : ℚ) (contribs : List ℚ) (p : ℚ), p ∈ contribs →
      p ≤ wayPassResult prior contribs) ∧
    (∀ (prior : ℚ) (contribs : List ℚ),
      wayPassResult prior contribs = 0 ∨ wayPassResult prior contribs ∈ contribs) := by
  refine ⟨?_, ?_, ?_⟩
  · intro prior contribs q hq
    show (contribs ++ [q]).foldl max (0.0 : ℚ) = contribs.foldl max (0.0 : ℚ)
    rw [List.foldl_append]
    exact max_eq_left hq
  · intro prior contribs p hp
    exact mem_le_foldl_max contribs 0.0 p hp
  · intro prior contribs
    rcases foldl_max_eq_init_or_mem contribs 0.0 with h | h
    · left
      show contribs.foldl max 0.0 = 0
      rw [h]; norm_num
    · right
      exact h

/-- Witness for C1 at a concrete input: a way annotated at 0.9 by one
hazard keeps probability 0.9 when a weaker 0.1 contribution is added. -/
theorem C1_fail_prob_is_max_of_contributions_witness :
    wayPassResult 0 ([0.9] ++ [0.1]) = wayPassResult 0 [0.9] :=
  C1_fail_prob_is_max_of_contributions.1 0 [0.9] 0.1 (by
    show (0.1 : ℚ) ≤ [0.9].foldl max 0.0
    norm_num)

/- ------------------------------------------------------------------
   C3: the pass replaces prior state but is not deterministic
   ------------------------------------------------------------------ -/

/-- C3 (amended): the aggregation pass carries no state over from the
previous pass — the way's resulting probability is a function of the
contribution list alone, identical for any two prior values (the pass
starts by overwriting `fail_prob` with 0.0). -/
theorem C3_pass_has_no_carry_over (p1 p2 : ℚ) (contribs : List ℚ) :
    wayPassResult p1 contribs = wayPassResult p2 contribs := rfl

/-- Counterexample to C3 as stated: the pass is not deterministic.
The same weather hazard (severity 3, 30 m away, 1000 m size, visibility
factor 1.0) produces different committed probabilities on two runs whose
`random.uniform(0.85, 1.15)` draws differ (0.9 on one run, 1.1 on the
other), so two runs over the same graph and hazard list are not
bit-identical. -/
theorem C3_counterexample :
    wayPassResult 0 [calculate_dynamic_weather_probability 3 30 1000 1 0.9] ≠
      wayPassResult 0 [calculate_dynamic_weather_probability 3 30 1000 1 1.1] := by
  norm_num [wayPassResult, calculate_dynamic_weather_probability,
    calculate_dynamic_probability, base_probs, min_def, max_def,
    show ("weather" : String) ≠ "waze" by decide]

/- ------------------------------------------------------------------
   C8: range of the computed probabilities
   ------------------------------------------------------------------ -/

lemma calculate_dynamic_probability_nonneg (threat_type : String) (severity distance_m : ℚ)
    (size_m : Option ℚ) (duration_factor random_factor : ℚ) :
    0 ≤ calculate_dynamic_probability threat_type severity distance_m size_m
        duration_factor random_factor := by
  simp only [calculate_dynamic_probability]
  refine le_min (by norm_num) ?_
  exact le_trans (by norm_num : (0 : ℚ) ≤ 0.0) (le_max_left _ _)

lemma calculate_dynamic_probability_le (threat_type : String) (severity distance_m : ℚ)
    (size_m : Option ℚ) (duration_factor random_factor : ℚ) :
    calculate_dynamic_probability threat_type severity distance_m size_m
        duration_factor random_factor ≤ 0.95 := by
  simp only [calculate_dynamic_probability]
  exact min_le_left _ _

lemma calculate_dynamic_weather_probability_nonneg (severity distance_m size_m
    visibility_factor random_factor : ℚ) (hs : 0 ≤ size_m) (hv : 0 ≤ visibility_factor) :
    0 ≤ calculate_dynamic_weather_probability severity distance_m size_m
        visibility_factor random_factor := by
  simp only [calculate_dynamic_weather_probability]
  refine le_min (by norm_num) ?_
  have h1 : (0 : ℚ) ≤ if severity ≥ 4 then (1.5 : ℚ) else 1.0 := by
    split <;> norm_num
  have h2 : (0 : ℚ) ≤ 1.0 + size_m / 3000 := by positivity
  have h3 := calculate_dynamic_probability_nonneg "weather" severity distance_m
    (some size_m) 0.6 random_factor
  exact mul_nonneg (mul_nonneg (mul_nonneg h3 h1) h2) hv

/-- C8 (amended): every contribution computed by `probability_model.py`
lies in `[0, 0.95] ⊆ [0, 1]` for arbitrary inputs (the weather variant
needs the nonnegative size and visibility factor its caller always
supplies), and the `procesar_amenazas.py` probability lies in `[0, 1]`
provided every threat row satisfies `severidad + impacto_critico ≤ 20`
(the 1–10 scales the script's comment assumes); without that bound it
can exceed 1. -/
theorem C8_fail_prob_in_unit_interval :
    (∀ (threat_type : String) (severity distance_m : ℚ) (size_m : Option ℚ)
        (duration_factor random_factor : ℚ),
      0 ≤ calculate_dynamic_probability threat_type severity distance_m size_m
          duration_factor random_factor ∧
      calculate_dynamic_probability threat_type severity distance_m size_m
          duration_factor random_factor ≤ 1) ∧
    (∀ (severity distance_m size_m visibility_factor random_factor : ℚ),
      0 ≤ size_m → 0 ≤ visibility_factor →
      0 ≤ calculate_dynamic_weather_probability severity distance_m size_m
          visibility_factor random_factor ∧
      calculate_dynamic_weather_probability severity distance_m size_m
          visibility_factor random_factor ≤ 1) ∧
    (∀ rows : List Amenaza, (∀ a ∈ rows, a.severidad + a.impacto_critico ≤ 20) →
      0 ≤ procesarProbFalla rows ∧ procesarProbFalla rows ≤ 1) := by
  refine ⟨?_, ?_, ?_⟩
  · intro tt sev dist sz df r
    refine ⟨calculate_dynamic_probability_nonneg tt sev dist sz df r, ?_⟩
    exact le_trans (calculate_dynamic_probability_le tt sev dist sz df r) (by norm_num)
  · intro sev dist sz vf r hs hv
    refine ⟨calculate_dynamic_weather_probability_nonneg sev dist sz vf r hs hv, ?_⟩
    exact le_trans (min_le_left _ _) (by norm_num)
  · intro rows hrows
    have hmap : procesarProbFalla rows = (rows.map prob_amenaza).foldl max 0.0 := by
      simp [procesarProbFalla, List.foldl_map]
    rw [hmap]
    refine ⟨le_trans (by norm_num : (0 : ℚ) ≤ 0.0) (foldl_max_init_le _ _), ?_⟩
    refine foldl_max_le_of_forall _ _ _ (by norm_num) ?_
    intro p hp
    rcases List.mem_map.mp hp with ⟨a, ha, rfl⟩
    have hb := hrows a ha
    unfold prob_amenaza
    linarith

/-- Counterexample to C8 as stated: a threat row with `severidad = 15` and
`impacto_critico = 10` drives a way's `prob_falla` to 1.25 in
`procesar_amenazas.py`, outside `[0, 1]`. -/
theorem C8_counterexample : ¬ procesarProbFalla [⟨15, 10⟩] ≤ 1 := by
  norm_num [procesarProbFalla, prob_amenaza, max_def]

/-- Witness for C8 at concrete inputs, discharging each hypothesis. -/
theorem C8_fail_prob_in_unit_interval_witness :
    (0 ≤ calculate_dynamic_probability "waze" 3 30 none 0.8 1 ∧
      calculate_dynamic_probability "waze" 3 30 none 0.8 1 ≤ 1) ∧
    (0 ≤ calculate_dynamic_weather_probability 3 30 1000 1 1 ∧
      calculate_dynamic_weather_probability 3 30 1000 1 1 ≤ 1) ∧
    (0 ≤ procesarProbFalla [⟨5, 5⟩] ∧ procesarProbFalla [⟨5, 5⟩] ≤ 1) :=
  ⟨C8_fail_prob_in_unit_interval.1 "waze" 3 30 none 0.8 1,
   C8_fail_prob_in_unit_interval.2.1 3 30 1000 1 1 (by norm_num) (by norm_num),
   C8_fail_prob_in_unit_interval.2.2 [⟨5, 5⟩] (by
     intro a ha
     rcases List.mem_singleton.mp ha with rfl
     norm_num)⟩

/- ------------------------------------------------------------------
   Facts about the search model
   ------------------------------------------------------------------ -/

lemma simplePathsAux_arcs_mem (arcs : List Arc) :
    ∀ (fuel cur tgt : Nat) (visited : List Nat) (p : List Arc),
      p ∈ simplePathsAux arcs fuel cur tgt visited → ∀ a ∈ p, a ∈ arcs := by
  intro fuel
  induction fuel with
  | zero =>
    intro cur tgt visited p hp
    simp [simplePathsAux] at hp
  | succ fuel ih =>
    intro cur tgt visited p hp a ha
    simp only [simplePathsAux] at hp
    by_cases h : cur = tgt
    · rw [if_pos h] at hp
      simp only [List.mem_singleton] at hp
      subst hp
      cases ha
    · rw [if_neg h] at hp
      rcases List.mem_flatMap.mp hp with ⟨b, hb, hpb⟩
      rcases List.mem_map.mp hpb with ⟨q, hq, rfl⟩
      rcases List.mem_cons.mp ha with rfl | ha2
      · exact (List.mem_filter.mp hb).1
      · exact ih b.tgt tgt (b.tgt :: visited) q hq a ha2

lemma pick_min_mem (l : List (List Arc)) :
    ∀ (acc : Option (List Arc)) (p : List Arc),
      l.foldl (fun best q =>
        match best with
        | none => some q
        | some b => if pathCost q < pathCost b then some q else best) acc = some p →
      p ∈ l ∨ acc = some p := by
  induction l with
  | nil =>
    intro acc p h
    exact Or.inr h
  | cons a l ih =>
    intro acc p h
    rw [List.foldl_cons] at h
    rcases ih _ p h with hm | he
    · exact Or.inl (List.mem_cons_of_mem a hm)
    · cases acc with
      | none =>
        have he2 : some a = some p := he
        injection he2 with h2
        subst h2
        exact Or.inl (List.mem_cons_self a l)
      | some b =>
        have he2 : (if pathCost a < pathCost b then some a else some b) = some p := he
        by_cases hc : pathCost a < pathCost b
        · rw [if_pos hc] at he2
          injection he2 with h2
          subst h2
          exact Or.inl (List.mem_cons_self a l)
        · rw [if_neg hc] at he2
          exact Or.inr he2

lemma pgrDijkstra_sound (arcs : List Arc) (src tgt : Nat) (p : List Arc)
    (h : pgrDijkstra arcs src tgt = some p) : ∀ a ∈ p, a ∈ arcs := by
  rcases pick_min_mem (simplePaths arcs src tgt) none p h with hm | he
  · exact simplePathsAux_arcs_mem arcs (arcs.length + 1) src tgt [src] p hm
  · simp at he

/- ------------------------------------------------------------------
   C2: run_routing_algorithm's risk-weighted cost
   ------------------------------------------------------------------ -/

lemma routeAggCost_mono (p : List RoutingWay) :
    ∀ acc1 acc2 : ℚ, acc1 ≤ acc2 → (∀ w ∈ p, 0 ≤ w.fail_prob ∧ 0 ≤ w.cost) →
      p.foldl (fun acc w => acc + cost_expression true w) acc1 ≤
        p.foldl (fun acc w => acc + cost_expression false w) acc2 := by
  induction p with
  | nil =>
    intro acc1 acc2 hle _
    exact hle
  | cons w p ih =>
    intro acc1 acc2 hle hall
    rw [List.foldl_cons, List.foldl_cons]
    refine ih _ _ ?_ (fun v hv => hall v (List.mem_cons_of_mem w hv))
    have hw := hall w (List.mem_cons_self w p)
    have h1 : cost_expression true w ≤ cost_expression false w := by
      simp only [cost_expression, if_true, Bool.false_eq_true, if_false]
      nlinarith [mul_nonneg hw.1 hw.2]
    linarith

/-- C2: in `run_routing_algorithm` the `use_fail_prob` cost expression
`(1.0 - fail_prob) * cost` makes routes through failing edges cheaper,
never dearer: on the concrete one-edge route (cost 100, fail_prob 0.5)
the risk-weighted total is 50 against a distance total of 100, and in
general the risk-weighted total is at most the distance total for any
route with nonnegative probabilities and costs — the reverse of the
claimed inequality. -/
theorem C2_risk_weighting_makes_routes_cheaper :
    (routeAggCost false [⟨100, 1/2⟩] = 100 ∧ routeAggCost true [⟨100, 1/2⟩] = 50) ∧
    (∀ p : List RoutingWay, (∀ w ∈ p, 0 ≤ w.fail_prob ∧ 0 ≤ w.cost) →
      routeAggCost true p ≤ routeAggCost false p) := by
  constructor
  · constructor <;> norm_num [routeAggCost, cost_expression]
  · intro p h
    exact routeAggCost_mono p 0 0 (le_refl 0) h

/-- Witness for C2 at the concrete one-edge route. -/
theorem C2_risk_weighting_makes_routes_cheaper_witness :
    routeAggCost true [⟨100, 1/2⟩] ≤ routeAggCost false [⟨100, 1/2⟩] :=
  C2_risk_weighting_makes_routes_cheaper.2 [⟨100, 1/2⟩] (by
    intro w hw
    rcases List.mem_singleton.mp hw with rfl
    constructor <;> norm_num)

/- ------------------------------------------------------------------
   C4: the cplex cost function and the detour scenario
   ------------------------------------------------------------------ -/

/-- Counterexample to C4 as stated: an edge whose `cost_combined` (106,
as `procesar_amenazas.py` yields for `length_m = 100` with
`costo_amenaza = 2`) differs from its length gets cplex cost
`106 * (1 + 8) = 954`, not `length * (1 + 10 * fail_prob) = 900`. -/
theorem C4_counterexample :
    cplexCost wayThreatCost ≠
      wayThreatCost.length_m * (1 + 10 * wayThreatCost.fail_prob) := by
  norm_num [cplexCost, wayThreatCost]

/-- C4 (amended): the cplex branch's edge cost is
`cost_combined * (1 + 10 * fail_prob)`, which reduces to the claimed
`length * (1 + 10 * fail_prob)` exactly on edges whose `cost_combined`
equals their length; on the 4-node scenario (all `cost_combined =
length`, B–C at `fail_prob = 0.8`) the A-B-C-D path costs
100 + 900 + 100 = 1100 and the search returns the 500 m detour
A-B-E-C-D. -/
theorem C4_risk_weighted_cost_and_detour :
    (∀ w : Way, w.cost_combined = w.length_m →
      cplexCost w = w.length_m * (1 + 10 * w.fail_prob)) ∧
    pathCost [⟨1, 1, 2, cplexCost wayAB⟩, ⟨2, 2, 3, cplexCost wayBC⟩,
      ⟨3, 3, 4, cplexCost wayCD⟩] = 1100 ∧
    pgrDijkstra (cplexArcs scenarioWays) 1 4 =
      some [⟨1, 1, 2, 100⟩, ⟨4, 2, 5, 150⟩, ⟨5, 5, 3, 150⟩, ⟨3, 3, 4, 100⟩] ∧
    pathCost [⟨1, 1, 2, 100⟩, ⟨4, 2, 5, 150⟩, ⟨5, 5, 3, 150⟩, ⟨3, 3, 4, 100⟩] = 500 := by
  refine ⟨?_, ?_, ?_, ?_⟩
  · intro w h
    simp only [cplexCost, h]
    ring
  · norm_num [pathCost, cplexCost, wayAB, wayBC, wayCD]
  · norm_num [pgrDijkstra, simplePaths, simplePathsAux, cplexArcs, cplexEligible,
      cplexCost, undirectedArcs, scenarioWays, wayAB, wayBC, wayCD, wayBE, wayEC,
      pathCost, List.filter, List.flatMap]
  · norm_num [pathCost]

/-- Witness for C4 at the hazard-free scenario edge A–B. -/
theorem C4_risk_weighted_cost_and_detour_witness :
    cplexCost wayAB = wayAB.length_m * (1 + 10 * wayAB.fail_prob) :=
  C4_risk_weighted_cost_and_detour.1 wayAB rfl

/- ------------------------------------------------------------------
   C5: every algorithm branch raises NameError
   ------------------------------------------------------------------ -/

/-- C5: `ids_str` is bound neither among `api_calculate_route`'s locals
nor among `app.py`'s module-level names, so the first statement of every
algorithm branch raises `NameError`; each branch's `except` swallows it,
`results` stays empty for every algorithm selector, and the endpoint
answers with the 404 no-route error. -/
theorem C5_all_branches_name_error_so_404 :
    apiNameDefined "ids_str" = false ∧
    (∀ elseArm : String,
      evalPenaltyClause elseArm = Except.error (PyErr.nameError "ids_str")) ∧
    (∀ algorithm : String, apiCalculateRoute algorithm =
      ApiResponse.notFound
        "No se pudo calcular ninguna ruta entre los puntos especificados") := by
  have hdef : apiNameDefined "ids_str" = false := by decide
  have heval : ∀ elseArm : String,
      evalPenaltyClause elseArm = Except.error (PyErr.nameError "ids_str") := by
    intro elseArm
    simp [evalPenaltyClause, hdef]
  have hrun : ∀ (s : Bool) (k e : String) (res : List (String × String)),
      runBranch s k e res = res := by
    intro s k e res
    cases s
    · rfl
    · simp [runBranch, heval e]
  refine ⟨hdef, heval, ?_⟩
  intro algorithm
  simp [apiCalculateRoute, hrun]

/- ------------------------------------------------------------------
   C6: directionality
   ------------------------------------------------------------------ -/

/-- Counterexample to C6 as stated: `onewayWay` is a forward-only edge
from node 1 to node 2, yet the `dijkstra_dist` search of
`/api/calculate_route` (which runs `pgr_dijkstra` with
`directed := false`) routes from 2 to 1 straight across it — the
returned route traverses a oneway edge from its target to its source. -/
theorem C6_counterexample :
    onewayWay.oneway = "yes" ∧ onewayWay.source = 1 ∧ onewayWay.target = 2 ∧
    pgrDijkstra (appDistArcs [onewayWay]) 2 1 = some [⟨8, 2, 1, 100⟩] := by
  refine ⟨rfl, rfl, rfl, ?_⟩
  norm_num [pgrDijkstra, simplePaths, simplePathsAux, appDistArcs, undirectedArcs,
    onewayWay, pathCost, List.filter, List.flatMap]

/-- C6 (amended): `main.py`'s directed searches honor the oneway flag —
a `oneway = 'yes'` row contributes only its forward arc (its
`reverse_cost` is -1, which pgRouting treats as untraversable), any
other row contributes both directions at the unchanged base cost, and
every arc of a returned route belongs to the arc set searched — while
the `/api/calculate_route` searches run undirected (see the
counterexample). -/
theorem C6_main_honors_directionality :
    (∀ w : MainWay, 0 ≤ w.length_m → w.oneway = "yes" →
      mainArcsOfRow w = [⟨w.id, w.source, w.target, w.length_m⟩]) ∧
    (∀ w : MainWay, 0 ≤ w.length_m → w.oneway ≠ "yes" →
      mainArcsOfRow w = [⟨w.id, w.source, w.target, w.length_m⟩,
        ⟨w.id, w.target, w.source, w.length_m⟩]) ∧
    (∀ (arcs : List Arc) (src tgt : Nat) (p : List Arc),
      pgrDijkstra arcs src tgt = some p → ∀ a ∈ p, a ∈ arcs) := by
  refine ⟨?_, ?_, ?_⟩
  · intro w hlen hyes
    norm_num [mainArcsOfRow, mainCost, mainReverseCost, hyes, hlen]
  · intro w hlen hne
    norm_num [mainArcsOfRow, mainCost, mainReverseCost, hne, hlen]
  · exact pgrDijkstra_sound

/-- Witness for C6 at concrete rows and a concrete one-arc search. -/
theorem C6_main_honors_directionality_witness :
    mainArcsOfRow ⟨8, 1, 2, 100, "yes", none⟩ = [⟨8, 1, 2, 100⟩] ∧
    mainArcsOfRow ⟨9, 1, 2, 100, "no", none⟩ =
      [⟨9, 1, 2, 100⟩, ⟨9, 2, 1, 100⟩] ∧
    (⟨1, 1, 2, 5⟩ : Arc) ∈ [(⟨1, 1, 2, 5⟩ : Arc)] :=
  ⟨C6_main_honors_directionality.1 ⟨8, 1, 2, 100, "yes", none⟩ (by norm_num) rfl,
   C6_main_honors_directionality.2.1 ⟨9, 1, 2, 100, "no", none⟩ (by norm_num) (by decide),
   C6_main_honors_directionality.2.2 [⟨1, 1, 2, 5⟩] 1 2 [⟨1, 1, 2, 5⟩]
     (by norm_num [pgrDijkstra, simplePaths, simplePathsAux, pathCost,
       List.filter, List.flatMap])
     ⟨1, 1, 2, 5⟩ (List.mem_singleton_self _)⟩

/- ------------------------------------------------------------------
   C7: no fail_prob threshold filtering, no NoSafePath
   ------------------------------------------------------------------ -/

/-- Counterexample to C7 as stated: the only route from 1 to 2 runs over
an edge with `fail_prob = 0.9 ≥ 0.5`, and the cplex variant returns that
route (at penalized cost 1000) instead of refusing it with a
`NoSafePath` error. -/
theorem C7_counterexample :
    (1/2 : ℚ) ≤ riskyWay.fail_prob ∧
    pgrDijkstra (cplexArcs [riskyWay]) 1 2 = some [⟨7, 1, 2, 1000⟩] := by
  constructor
  · norm_num [riskyWay]
  · norm_num [pgrDijkstra, simplePaths, simplePathsAux, cplexArcs, cplexEligible,
      cplexCost, undirectedArcs, riskyWay, pathCost, List.filter, List.flatMap]

/-- C7 (amended): the cplex branch never filters by failure probability —
its graph query admits every row with `cost_combined > 0`, so an edge at
or above any threshold stays eligible and its (penalized) arc is handed
to the search. -/
theorem C7_no_threshold_filtering :
    ∀ (rows : List Way) (w : Way), w ∈ rows → 0 < w.cost_combined →
      w ∈ cplexEligible rows ∧
      (⟨w.id, w.source, w.target, cplexCost w⟩ : Arc) ∈ cplexArcs rows := by
  intro rows w hmem hpos
  have helig : w ∈ cplexEligible rows := by
    simp only [cplexEligible, List.mem_filter]
    exact ⟨hmem, by simpa using hpos⟩
  refine ⟨helig, ?_⟩
  simp only [cplexArcs, undirectedArcs, List.mem_flatMap]
  exact ⟨w, helig, by simp⟩

/-- Witness for C7 at the high-risk edge. -/
theorem C7_no_threshold_filtering_witness :
    riskyWay ∈ cplexEligible [riskyWay] ∧
    (⟨riskyWay.id, riskyWay.source, riskyWay.target, cplexCost riskyWay⟩ : Arc) ∈
      cplexArcs [riskyWay] :=
  C7_no_threshold_filtering [riskyWay] riskyWay (List.mem_singleton_self riskyWay)
    (by norm_num [riskyWay])

/- ------------------------------------------------------------------
   C9: demo-threat generation depends on the wall-clock hour
   ------------------------------------------------------------------ -/

/-- Counterexample to C9 as stated: the same random draws fed to the
generator produce different probabilities for a waze TRAFFIC_JAM threat
at hour 8 (rush hour, `time_factor = 1.5`) and hour 12
(`time_factor = 1.0`) — the output depends on
`datetime.datetime.now().hour`, not only on the random seed. -/
theorem C9_counterexample :
    sim_probability trafficJamConfig "waze" 8 ⟨0, 100, 1, 0⟩ ≠
      sim_probability trafficJamConfig "waze" 12 ⟨0, 100, 1, 0⟩ := by
  norm_num [sim_probability, trafficJamConfig, sim_distance_factor, time_factor_for,
    min_def, max_def]

/-- C9 (amended): the generated severity and probability are functions of
the configuration, the random draws and the hour only through
`time_factor`; two runs whose hours give the same time factor (for waze:
the same rush-hour indicator) produce identical output for the same
draws. -/
theorem C9_reproducible_given_same_time_factor (cfg : ThreatConfig)
    (threat_source : String) (h1 h2 : Nat) (d : ThreatDraws)
    (h : time_factor_for threat_source h1 d = time_factor_for threat_source h2 d) :
    sim_severity cfg threat_source h1 d = sim_severity cfg threat_source h2 d ∧
    sim_probability cfg threat_source h1 d = sim_probability cfg threat_source h2 d := by
  refine ⟨?_, ?_⟩ <;> simp [sim_severity, sim_probability, h]

/-- Witness for C9: hours 8 and 9 lie in the same rush-hour window, so
the outputs agree. -/
theorem C9_reproducible_given_same_time_factor_witness :
    sim_severity trafficJamConfig "waze" 8 ⟨0, 100, 1, 0⟩ =
      sim_severity trafficJamConfig "waze" 9 ⟨0, 100, 1, 0⟩ ∧
    sim_probability trafficJamConfig "waze" 8 ⟨0, 100, 1, 0⟩ =
      sim_probability trafficJamConfig "waze" 9 ⟨0, 100, 1, 0⟩ :=
  C9_reproducible_given_same_time_factor trafficJamConfig "waze" 8 9 ⟨0, 100, 1, 0⟩
    (by norm_num [time_factor_for])

/- ------------------------------------------------------------------
   C10: undefined names abort the probability pass
   ------------------------------------------------------------------ -/

/-- Counterexample to C10 as stated: with the vertices table present but
exposing neither `geom` nor `the_geom`, a weather-only threat load runs
to completion — `main` returns 0, no NameError is raised, and way 7's
committed probability is no longer the reset value 0. -/
theorem C10_counterexample :
    (probability_model_main pmNoGeomColInput).1 = 0 ∧
    (probability_model_main pmNoGeomColInput).2 ≠ [(7, (0 : ℚ))] := by
  have h1 : calculate_dynamic_weather_probability 3 30 1000 1 1 = 583 / 625 := by
    norm_num [calculate_dynamic_weather_probability, calculate_dynamic_probability,
      base_probs, min_def, max_def, show ("weather" : String) ≠ "waze" by decide]
  have hmain : probability_model_main pmNoGeomColInput = (0, [(7, 583 / 625)]) := by
    simp only [probability_model_main, pmNoGeomColInput, calculate_failure_probabilities]
    norm_num [updateWayProb, h1, max_def]
  rw [hmain]
  norm_num

/-- C10 (amended): whenever the Waze or calming table is non-empty, or
the vertices table exists with a detected geometry column while any
threat table is non-empty, `calculate_failure_probabilities` raises a
`NameError` on a name bound nowhere in `probability_model.py`
(`get_influence_radius` or `WAZE_PROB`), `main` returns 1, and every
way's committed `fail_prob` is the reset value 0. -/
theorem C10_undefined_names_abort_pass (inp : PmInput)
    (h : 0 < inp.waze_count ∨ 0 < inp.calming_count ∨
      (inp.vertices_table_exists = true ∧ inp.vertices_geom_col ≠ none ∧
        0 < inp.waze_count + inp.weather_count + inp.calming_count)) :
    (∃ n, pmNameDefined n = false ∧
      calculate_failure_probabilities
        { inp with ways := inp.ways.map (fun e => (e.1, (0 : ℚ))) } =
        Except.error (PyErr.nameError n)) ∧
    probability_model_main inp = (1, inp.ways.map (fun e => (e.1, (0 : ℚ)))) := by
  have hga : pmNameDefined "get_influence_radius" = false := by decide
  have hwp : pmNameDefined "WAZE_PROB" = false := by decide
  have herr : ∃ n, pmNameDefined n = false ∧
      calculate_failure_probabilities
        { inp with ways := inp.ways.map (fun e => (e.1, (0 : ℚ))) } =
        Except.error (PyErr.nameError n) := by
    by_cases hw : 0 < inp.waze_count
    · refine ⟨"get_influence_radius", hga, ?_⟩
      have htot : ¬ (inp.waze_count + inp.weather_count + inp.calming_count = 0) := by
        omega
      simp [calculate_failure_probabilities, htot, hw, pmEvalName, hga]
    · by_cases hc : 0 < inp.calming_count
      · refine ⟨"get_influence_radius", hga, ?_⟩
        have htot : ¬ (inp.waze_count + inp.weather_count + inp.calming_count = 0) := by
          omega
        simp [calculate_failure_probabilities, htot, hw, hc, pmEvalName, hga]
      · rcases h with h | h | ⟨hvt, hvg, htot0⟩
        · exact absurd h hw
        · exact absurd h hc
        · refine ⟨"WAZE_PROB", hwp, ?_⟩
          have htot : ¬ (inp.waze_count + inp.weather_count + inp.calming_count = 0) := by
            omega
          rcases Option.ne_none_iff_exists'.mp hvg with ⟨g, hg⟩
          simp [calculate_failure_probabilities, htot, hw, hc, hvt, hg, pmEvalName, hwp]
  refine ⟨herr, ?_⟩
  rcases herr with ⟨n, _, herr2⟩
  simp [probability_model_main, herr2]

/-- Witness for C10 at the one-Waze-threat input. -/
theorem C10_undefined_names_abort_pass_witness :
    (∃ n, pmNameDefined n = false ∧
      calculate_failure_probabilities
        { pmWazeInput with ways := pmWazeInput.ways.map (fun e => (e.1, (0 : ℚ))) } =
        Except.error (PyErr.nameError n)) ∧
    probability_model_main pmWazeInput =
      (1, pmWazeInput.ways.map (fun e => (e.1, (0 : ℚ)))) :=
  C10_undefined_names_abort_pass pmWazeInput (Or.inl (by decide))
